import Mathlib

/-!
Verification of `src/google_sheets_connector.js` (Martin Simonson portfolio
site, Google-Sheets data connector).

Shallow embedding conventions:
* CSV record field values are modelled as `String`; a missing field and the
  empty string are identified (both are JS-falsy, and every field read in the
  source goes through a truthiness test such as `!str`, `x || d`, or a
  `lang === 'es' ? a : b` selection of string-typed columns).
* DOM elements are modelled by `Option`-valued slots: `none` means the
  element is absent from the page, `some v` carries the mutable content
  (`innerHTML` for containers, a small record for the two buttons).
* A renderer call is a state transformer on its DOM slice; a JS exception
  escaping the function is modelled by the `thrown` field of `RunResult`
  (carrying the state as mutated up to the throw point).
* `console.warn` / `console.error` / `console.log` calls are modelled as
  `LogEntry.warn` / `LogEntry.error` / `LogEntry.info` entries.
* The network (`fetch`, `response.text()`) and the CSV decoder (`Papa.parse`)
  are external collaborators and are passed in as oracle functions.
* JS numbers holding `Date.now()` timestamps are modelled as `Int`.
* JS string `.length` counts UTF-16 code units and Lean `String.length`
  counts code points; they agree on all code points below 0x10000.
-/

/-! ## Generic list/string helpers (executable substitutes for JS idioms) -/

/-- `concatMap f l` is `(l.map f).flatten`, by direct recursion. -/
def concatMap (f : α → List β) : List α → List β
  | [] => []
  | x :: xs => f x ++ concatMap f xs

/-- Fold of `++` over a list of strings starting from `""`; this is the
shape that repeated `container.innerHTML += piece` takes in the source. -/
def appendAll (pieces : List String) : String :=
  pieces.foldl (fun a b => a ++ b) ""

/-- JS `s || d` on our string model of field values ("" is the only falsy
string). -/
def jsOr (s d : String) : String := if s = "" then d else s

/-- JS `String.prototype.replace` with a global single-character regex, e.g.
`.replace(/&/g, "&amp;")`: every occurrence of the character is replaced. -/
def repAll (c : Char) (r : List Char) : List Char → List Char
  | [] => []
  | x :: xs => (if x = c then r else [x]) ++ repAll c r xs

/-- ASCII lower-casing of a character, as JS `toLowerCase` acts on the
category strings used by this page (all ASCII). -/
def jsCharToLower (c : Char) : Char :=
  if 65 ≤ c.toNat ∧ c.toNat ≤ 90 then Char.ofNat (c.toNat + 32) else c

/-- JS `String.prototype.toLowerCase` on ASCII data. -/
def jsToLowerCase (s : String) : String := String.mk (s.toList.map jsCharToLower)

/-- `pat` occurs as a contiguous run inside `s` (JS `String.prototype.includes`). -/
def listIsInfix (pat : List Char) : List Char → Bool
  | [] => pat.isEmpty
  | c :: rest => pat.isPrefixOf (c :: rest) || listIsInfix pat rest

/-- JS `String.prototype.replace` with a (non-empty) string pattern: only the
first occurrence is replaced; a string with no occurrence is returned
unchanged. -/
def replaceFirstList (pat repl : List Char) : List Char → List Char
  | [] => []
  | c :: cs =>
    if pat.isPrefixOf (c :: cs) then repl ++ (c :: cs).drop pat.length
    else c :: replaceFirstList pat repl cs

/-- The apostrophe character `'` (written via its code point to keep source
text plain). -/
def aposC : Char := Char.ofNat 39

/-- `&` -/
def ampC : Char := Char.ofNat 38

/-- `<` -/
def ltC : Char := Char.ofNat 60

/-- `>` -/
def gtC : Char := Char.ofNat 62

/-- `"` -/
def quotC : Char := Char.ofNat 34

/-- `#` -/
def hashC : Char := Char.ofNat 35

/-- `?` -/
def questC : Char := Char.ofNat 63

/-- `\` -/
def backslashC : Char := Char.ofNat 92

/-! ## `escapeHTML` (source lines 64–72) -/

/-- The five chained global replaces of `escapeHTML`, innermost first, on the
character-list view of the string:
`.replace(/&/g,"&amp;").replace(/</g,"&lt;").replace(/>/g,"&gt;")
.replace(/"/g,"&quot;").replace(/'/g,"&#039;")`. -/
def escListChain (l : List Char) : List Char :=
  repAll aposC "&#039;".toList
    (repAll quotC "&quot;".toList
      (repAll gtC "&gt;".toList
        (repAll ltC "&lt;".toList
          (repAll ampC "&amp;".toList l))))

/-- `escapeHTML(str)`: `if (!str) return '';` then the five replaces. -/
def escapeHTML (str : String) : String :=
  if str = "" then "" else String.mk (escListChain str.toList)

/-- Specification-side description of the escaping (one character at a time):
the five HTML-sensitive characters go to their entity equivalents, everything
else is untouched. This definition follows the spec's words and is compared
with the source-derived `escapeHTML` by `escapeHTML_eq_spec`. -/
def escCharSpec (c : Char) : List Char :=
  if c = ampC then "&amp;".toList
  else if c = ltC then "&lt;".toList
  else if c = gtC then "&gt;".toList
  else if c = quotC then "&quot;".toList
  else if c = aposC then "&#039;".toList
  else [c]

/-! ## `transformCloudinaryUrl` (source lines 51–56) -/

def transformCloudinaryUrl (url transformation : String) : String :=
  if url = "" ∨ listIsInfix "/upload/".toList url.toList = false then url
  else String.mk (replaceFirstList "/upload/".toList transformation.toList url.toList)

/-! ## `encodeURIComponent` (browser builtin used by `populateBooks`) -/

/-- UTF-8 byte sequence of a code point. -/
def utf8Bytes (n : Nat) : List Nat :=
  if n < 128 then [n]
  else if n < 2048 then [192 + n / 64, 128 + n % 64]
  else if n < 65536 then [224 + n / 4096, 128 + (n / 64) % 64, 128 + n % 64]
  else [240 + n / 262144, 128 + (n / 4096) % 64, 128 + (n / 64) % 64, 128 + n % 64]

/-- Uppercase hex digit. -/
def hexDigit (n : Nat) : Char :=
  if n < 10 then Char.ofNat (48 + n) else Char.ofNat (55 + n)

/-- `%XY` percent-encoding of one byte. -/
def percentEncodeByte (b : Nat) : List Char :=
  [Char.ofNat 37, hexDigit (b / 16), hexDigit (b % 16)]

/-- The characters `encodeURIComponent` leaves unescaped:
`A–Z a–z 0–9 - _ . ! ~ * ' ( )`. -/
def isUnreservedURIChar (c : Char) : Bool :=
  let n := c.toNat
  (65 ≤ n && n ≤ 90) || (97 ≤ n && n ≤ 122) || (48 ≤ n && n ≤ 57) ||
  (n == 45) || (n == 95) || (n == 46) || (n == 33) || (n == 126) ||
  (n == 42) || (n == 39) || (n == 40) || (n == 41)

def encodeURIComponent (s : String) : String :=
  String.mk (concatMap
    (fun c =>
      if isUnreservedURIChar c then [c]
      else concatMap percentEncodeByte (utf8Bytes c.toNat))
    s.toList)

/-! ## `getYoutubeVideoId` (source lines 77–82)

The regex is
`/^.*(youtu.be\/|v\/|u\/\w\/|embed\/|watch\?v=|\&v=)([^#\&\?]*).*/`.
Backtracking semantics of the leading greedy `.*`: the delimiter group is
matched at the right-most position where any alternative matches,
alternatives tried left to right at that position; the capture
`([^#&?]*)` then greedily takes every following character up to the first
`#`, `&` or `?` (or the end), and the trailing `.*` consumes the rest.
(None of the URLs involved contain line terminators, so the difference
between `.` and "any character" does not arise.) -/

/-- One position of a regex alternative: a literal character, the wildcard
`.`, or the class `\w` = `[A-Za-z0-9_]`. -/
inductive PatChar
  | lit (c : Char)
  | anyChar
  | wordChar
deriving DecidableEq

def patCharMatches : PatChar → Char → Bool
  | .lit c, x => x == c
  | .anyChar, _ => true
  | .wordChar, x => x.isAlphanum || x == Char.ofNat 95

def patMatchesPrefix : List PatChar → List Char → Bool
  | [], _ => true
  | _ :: _, [] => false
  | p :: ps, c :: cs => patCharMatches p c && patMatchesPrefix ps cs

/-- The six delimiter alternatives, in the order they appear in the regex.
`youtu.be/` has a wildcard at the position of the unescaped dot. -/
def videoIdPats : List (List PatChar) :=
  [[.lit 'y', .lit 'o', .lit 'u', .lit 't', .lit 'u', .anyChar, .lit 'b', .lit 'e', .lit '/'],
   [.lit 'v', .lit '/'],
   [.lit 'u', .lit '/', .wordChar, .lit '/'],
   [.lit 'e', .lit 'm', .lit 'b', .lit 'e', .lit 'd', .lit '/'],
   [.lit 'w', .lit 'a', .lit 't', .lit 'c', .lit 'h', .lit questC, .lit 'v', .lit '='],
   [.lit ampC, .lit 'v', .lit '=']]

/-- First alternative (in regex order) matching at the head of `s`, with its
length. -/
def firstAltAt (s : List Char) : Option Nat :=
  videoIdPats.findSome? (fun p => if patMatchesPrefix p s then some p.length else none)

/-- Right-most position at which a delimiter alternative matches, with the
matched length (the behaviour of the greedy leading `.*`). -/
def findLastDelim (s : List Char) : Option (Nat × Nat) :=
  (List.range (s.length + 1)).reverse.findSome?
    (fun i => (firstAltAt (List.drop i s)).map (fun k => (i, k)))

/-- `getYoutubeVideoId(url)`: `if (!url) return null;` then the regex match;
the capture is returned exactly when it is 11 characters long. -/
def getYoutubeVideoId (url : String) : Option String :=
  if url = "" then none
  else
    match findLastDelim url.toList with
    | none => none
    | some p =>
      let captured := (List.drop (p.1 + p.2) url.toList).takeWhile
        (fun c => !(c == hashC || c == ampC || c == questC))
      if captured.length = 11 then some (String.mk captured) else none

/-! ## Record types (§3 of the spec; CSV rows keyed by header name)

Fields default to `""`, the model of an absent CSV cell. -/

structure Book where
  category : String := ""
  title_en : String := ""
  title_es : String := ""
  edition_en : String := ""
  edition_es : String := ""
  purchaseLink_en : String := ""
  purchaseLink_es : String := ""
  imgSrc_en : String := ""
  imgSrc_es : String := ""
  description_en : String := ""
  description_es : String := ""
  availableLangs : String := ""
  year : String := ""
deriving DecidableEq

structure Talk where
  title_en : String := ""
  title_es : String := ""
  description_en : String := ""
  description_es : String := ""
  linkText_en : String := ""
  linkText_es : String := ""
  date_en : String := ""
  date_es : String := ""
  congress_en : String := ""
  congress_es : String := ""
  youtubeLink : String := ""
  link : String := ""
deriving DecidableEq

structure NewsPost where
  title_en : String := ""
  title_es : String := ""
  date_en : String := ""
  date_es : String := ""
  description_en : String := ""
  description_es : String := ""
  imgSrc : String := ""
deriving DecidableEq

/-! ## Console log entries -/

inductive LogEntry
  | warn (msg : String)
  | error (msg : String) (err : String)
  | info (msg : String)
deriving DecidableEq

/-! ## Renderer result: state after the call plus a possible escaped JS
exception (the state carries every mutation made before the throw). -/

structure RunResult (σ : Type) where
  state : σ
  thrown : Option String
deriving DecidableEq

/-! ## `renderTalk` (source lines 191–245) -/

def talkTitle (lang : String) (talk : Talk) : String :=
  if lang = "es" then talk.title_es else talk.title_en

def talkDescription (lang : String) (talk : Talk) : String :=
  if lang = "es" then talk.description_es else talk.description_en

def talkLinkText (lang : String) (talk : Talk) : String :=
  if lang = "es" then talk.linkText_es else talk.linkText_en

def talkDate (lang : String) (talk : Talk) : String :=
  jsOr (if lang = "es" then talk.date_es else talk.date_en) ""

def talkCongress (lang : String) (talk : Talk) : String :=
  jsOr (if lang = "es" then talk.congress_es else talk.congress_en) ""

/-- `let metaInfo = ''; if (date) ... ; if (date && congress) ... ;
if (congress) ...` -/
def talkMetaInfo (lang : String) (talk : Talk) : String :=
  (if talkDate lang talk ≠ "" then talkDate lang talk else "") ++
  ((if talkDate lang talk ≠ "" ∧ talkCongress lang talk ≠ "" then " | " else "") ++
  (if talkCongress lang talk ≠ "" then talkCongress lang talk else ""))

def talkMetaHtml (lang : String) (talk : Talk) : String :=
  if talkMetaInfo lang talk ≠ "" then
    "<p class=\"text-sm text-gray-500 mt-2\">" ++ (talkMetaInfo lang talk ++ "</p>")
  else ""

/-- The `textContentHtml` template literal (title, meta line, description and
external link); `title`, `description` and `linkText` are interpolated raw,
without `escapeHTML`. -/
def textContentHtml (lang : String) (talk : Talk) : String :=
  "\n            <div>\n                <h3 class=\"text-lg md:text-xl font-bold text-gray-100\">" ++
  (talkTitle lang talk ++
  ("</h3>\n                " ++
  (talkMetaHtml lang talk ++
  ("\n                <p class=\"text-gray-400 mt-1\">" ++
  (talkDescription lang talk ++
  (" | \n                    <a href=\"" ++
  (talk.link ++
  ("\" target=\"_blank\" rel=\"noopener noreferrer\" class=\"text-indigo-400 hover:underline\">\n                        " ++
  (talkLinkText lang talk ++
  "\n                    </a>\n                </p>\n            </div>\n        ")))))))))

/-- The `embedHtml` template literal; only the iframe `title` attribute is
escaped. -/
def talkEmbedHtml (title id : String) : String :=
  "\n                <div class=\"talks-video-wrapper\">\n                    <iframe \n                        src=\"" ++
  (("https://www.youtube.com/embed/" ++ id) ++
  ("\" \n                        title=\"YouTube video player for " ++
  (escapeHTML title ++
  "\" \n                        frameborder=\"0\" \n                        allow=\"accelerometer; autoplay; clipboard-write; encrypted-media; gyroscope; picture-in-picture\" \n                        allowfullscreen>\n                    </iframe>\n                </div>\n            ")))

/-- `renderTalk(talk)`: two-column layout when an 11-character video id was
extracted from `talk.youtubeLink`, text-only layout otherwise. -/
def renderTalk (lang : String) (talk : Talk) : String :=
  match getYoutubeVideoId talk.youtubeLink with
  | some videoId =>
    "\n                <div class=\"border-b border-gray-700 pb-8 mb-8\">\n                    <div class=\"flex flex-col md:flex-row md:gap-8 items-start\">\n                        <div class=\"w-full md:w-1/2 mb-4 md:mb-0\">" ++
    (talkEmbedHtml (talkTitle lang talk) videoId ++
    ("</div>\n                        <div class=\"w-full md:w-1/2\">" ++
    (textContentHtml lang talk ++
    "</div>\n                    </div>\n                </div>\n            ")))
  | none =>
    "<div class=\"border-b border-gray-700 pb-4\">" ++
    (textContentHtml lang talk ++ "</div>")

/-! ## `renderNews` (source lines 282–305) -/

def newsTitle (lang : String) (post : NewsPost) : String :=
  if lang = "es" then post.title_es else post.title_en

def newsDate (lang : String) (post : NewsPost) : String :=
  if lang = "es" then post.date_es else post.date_en

def readMoreText (lang : String) : String :=
  if lang = "es" then "Leer M\xC3\xA1s &rarr;" else "Read More &rarr;"

/-- `renderNews(post)`: the displayed `title` and `date` are interpolated
raw; the `data-*` attributes of the read-more link are escaped. -/
def renderNews (lang : String) (post : NewsPost) : String :=
  "\n            <div class=\"border-b border-gray-700 pb-4\">\n                <h3 class=\"text-lg md:text-xl font-bold text-gray-100\">" ++
  (newsTitle lang post ++
  ("</h3>\n                <p class=\"text-sm text-gray-500 mt-1\">" ++
  (newsDate lang post ++
  (" | \n                    <a href=\"#\" class=\"news-item-link text-indigo-400 hover:underline\"\n                       data-title-en=\"" ++
  (escapeHTML post.title_en ++
  ("\"\n                       data-title-es=\"" ++
  (escapeHTML post.title_es ++
  ("\"\n                       data-date-en=\"" ++
  (escapeHTML post.date_en ++
  ("\"\n                       data-date-es=\"" ++
  (escapeHTML post.date_es ++
  ("\"\n                       data-img-src=\"" ++
  (escapeHTML (jsOr post.imgSrc "") ++
  ("\"\n                       data-description-en=\"" ++
  (escapeHTML (jsOr post.description_en "") ++
  ("\"\n                       data-description-es=\"" ++
  (escapeHTML (jsOr post.description_es "") ++
  ("\">\n                        " ++
  (readMoreText lang ++
  "\n                    </a>\n                </p>\n            </div>")))))))))))))))))))

/-! ## Books renderer (source lines 85–163) -/

/-- The four fixed category containers; `none` models an absent DOM element
(the optional-chaining query yields `undefined`). -/
structure BooksDom where
  fiction : Option String
  essays : Option String
  anthologies : Option String
  translations : Option String
deriving DecidableEq

inductive CatKey
  | fiction
  | essays
  | anthologies
  | translations
deriving DecidableEq

/-- Own keys of the `categories` object literal. (Lookup of inherited
`Object.prototype` member names is not modelled; no sheet category uses
them.) -/
def keyOfString (s : String) : Option CatKey :=
  if s = "fiction" then some CatKey.fiction
  else if s = "essays" then some CatKey.essays
  else if s = "anthologies" then some CatKey.anthologies
  else if s = "translations" then some CatKey.translations
  else none

def getCat (dom : BooksDom) : CatKey → Option String
  | .fiction => dom.fiction
  | .essays => dom.essays
  | .anthologies => dom.anthologies
  | .translations => dom.translations

def setCat (dom : BooksDom) : CatKey → String → BooksDom
  | .fiction, s => { dom with fiction := some s }
  | .essays, s => { dom with essays := some s }
  | .anthologies, s => { dom with anthologies := some s }
  | .translations, s => { dom with translations := some s }

def clearOpt : Option String → Option String
  | none => none
  | some _ => some ""

/-- `for (const key in categories) if (categories[key]) categories[key].innerHTML = '';` -/
def clearPresent (dom : BooksDom) : BooksDom :=
  ⟨clearOpt dom.fiction, clearOpt dom.essays, clearOpt dom.anthologies,
   clearOpt dom.translations⟩

/-- `book.category ? book.category.toLowerCase() : ''` -/
def bookCategoryKey (book : Book) : String :=
  if book.category ≠ "" then jsToLowerCase book.category else ""

def bookTitle (lang : String) (book : Book) : String :=
  jsOr (if lang = "es" then book.title_es else book.title_en) "Untitled"

def bookEdition (lang : String) (book : Book) : String :=
  jsOr (if lang = "es" then book.edition_es else book.edition_en) ""

def bookPurchaseLink (lang : String) (book : Book) : String :=
  jsOr (if lang = "es" then book.purchaseLink_es else book.purchaseLink_en) "#"

def bookOriginalImgSrc (lang : String) (book : Book) : String :=
  jsOr (if lang = "es" then book.imgSrc_es else book.imgSrc_en) ""

/-- Thumbnail URL: Cloudinary pad transformation of a present cover image,
else the synthesized typographic cover with the three font-size tiers. -/
def bookThumbnailSrc (lang : String) (book : Book) : String :=
  if bookOriginalImgSrc lang book ≠ "" then
    transformCloudinaryUrl (bookOriginalImgSrc lang book) "/upload/w_200,h_300,c_pad,b_auto/"
  else
    String.append
      (String.append
        "https://res.cloudinary.com/dzef5s7pq/image/upload/w_200,h_300,c_fill/l_text:Arial_"
        (toString
          (if (bookTitle lang book).length > 55 then (22 : Nat)
           else if (bookTitle lang book).length > 25 then 28 else 32)))
      (String.append "_bold:"
        (String.append
          (encodeURIComponent
            (String.mk (repAll aposC [backslashC, aposC] (bookTitle lang book).toList)))
          ",co_rgb:333333,g_center,w_200,c_fit/l_text:Arial_20:Martin%20Simonson,co_rgb:333333,g_south,y_40/default_bg_kxcmab.png"))

/-- The per-book gallery entry template literal appended to the category
container. -/
def renderBook (lang : String) (book : Book) : String :=
  "\n                <a href=\"#\" class=\"group text-center block book-item\" \n                   data-type=\"" ++
  (book.category ++
  ("\" \n                   data-img-src=\"" ++
  (bookOriginalImgSrc lang book ++
  ("\"\n                   data-final-src=\"" ++
  (bookThumbnailSrc lang book ++
  ("\" \n                   data-title-en=\"" ++
  (escapeHTML book.title_en ++
  ("\" \n                   data-title-es=\"" ++
  (escapeHTML book.title_es ++
  ("\" \n                   data-desc-en=\"" ++
  (escapeHTML (jsOr book.description_en "") ++
  ("\" \n                   data-desc-es=\"" ++
  (escapeHTML (jsOr book.description_es "") ++
  ("\" \n                   data-link=\"" ++
  (escapeHTML (bookPurchaseLink lang book) ++
  ("\"\n                   data-available-langs=\"" ++
  (escapeHTML book.availableLangs ++
  ("\" \n                   data-year=\"" ++
  (escapeHTML book.year ++
  ("\">\n                    <div class=\"relative inline-block overflow-hidden rounded-lg shadow-lg group-hover:shadow-xl transition-all duration-300\">\n                        <img src=\"" ++
  (bookThumbnailSrc lang book ++
  ("\" alt=\"Cover for " ++
  (escapeHTML (bookTitle lang book) ++
  ("\" \n                             class=\"w-[200px] h-[300px] object-cover rounded-lg transform group-hover:scale-105 transition-transform duration-300\">\n                    </div>\n                    <h3 class=\"text-lg font-bold text-gray-100 mt-4\">" ++
  (escapeHTML (bookTitle lang book) ++
  ("</h3>\n                    <p class=\"text-sm text-gray-500\">" ++
  (escapeHTML (bookEdition lang book) ++
  "</p>\n                </a>")))))))))))))))))))))))))))

def bookWarnMsg (book : Book) : String :=
  "Book category container not found for: \"" ++ book.category ++ "\""

/-- One iteration of the `fetchedBooksData.forEach(book => ...)` body:
route by lowercased category; append the gallery entry when the container
exists (also logging the generated thumbnail URL), warn otherwise. -/
def bookStep (lang : String) (acc : BooksDom × List LogEntry) (book : Book) :
    BooksDom × List LogEntry :=
  match keyOfString (bookCategoryKey book) with
  | some k =>
    match getCat acc.1 k with
    | some content =>
      (setCat acc.1 k (content ++ renderBook lang book),
       acc.2 ++ [LogEntry.info ("Generated Thumbnail URL: " ++ bookThumbnailSrc lang book)])
    | none => (acc.1, acc.2 ++ [LogEntry.warn (bookWarnMsg book)])
  | none => (acc.1, acc.2 ++ [LogEntry.warn (bookWarnMsg book)])

/-- `populateBooks(lang)`: early return on empty data (the DOM is not
touched), else clear the present containers and rebuild from the records.
The trailing `initializeModalEventListeners` hook is external and guarded by
a `typeof` check; it does not affect the DOM slice modelled here. -/
def populateBooks (data : List Book) (lang : String) (dom : BooksDom) :
    BooksDom × List LogEntry :=
  if data.length = 0 then (dom, [])
  else data.foldl (bookStep lang) (clearPresent dom, [])

/-! ## Talks renderer (source lines 180–265) -/

/-- Mutable state of a show-all/collapse button: `textContent`, `disabled`,
and presence of the `opacity-50` class. -/
structure BtnState where
  textContent : String
  disabled : Bool
  opacity50 : Bool
deriving DecidableEq

/-- DOM slice of `populateTalks`: the `#talks .space-y-8` container, the two
buttons, the `dataset.listenerAttached` marker on the show-all button, and
the language captured by the attached click handlers (`none` when no
listeners are attached; the handlers read the records from the module-level
global at click time, so only the language is captured). -/
structure TalksDom where
  container : Option String
  showAllBtn : Option BtnState
  collapseBtn : Option BtnState
  listenerAttached : Bool
  attachedLang : Option String
deriving DecidableEq

def initialItemsToShow : Nat := 3

/-- Content rebuilt by the inner `populate(showAll)`:
`itemsToRender = showAll ? data : data.slice(0, initialItemsToShow)`,
then `container.innerHTML = ''` followed by one `+=` per item. -/
def talksRenderedContent (data : List Talk) (lang : String) (showAll : Bool) : String :=
  appendAll ((if showAll then data else data.take initialItemsToShow).map (renderTalk lang))

/-- The inner `populate(showAll)` of `populateTalks`: rebuilds the container
content and sets `disabled` / `opacity-50` on both buttons. -/
def talksPopulate (data : List Talk) (lang : String) (sb cb : BtnState)
    (showAll : Bool) : String × BtnState × BtnState :=
  (talksRenderedContent data lang showAll,
   { sb with disabled := showAll, opacity50 := showAll },
   { cb with disabled := !showAll, opacity50 := !showAll })

/-- `populateTalks(lang)`. The container is presence-checked, but the two
buttons are dereferenced unconditionally (`showAllBtn.textContent = ...`),
so an absent button raises a `TypeError` that escapes the function; the
`thrown` field records this, together with the mutations already made. -/
def populateTalks (data : List Talk) (lang : String) (dom : TalksDom) :
    RunResult TalksDom :=
  match dom.container with
  | none => ⟨dom, none⟩
  | some _ =>
    if data.length = 0 then ⟨dom, none⟩
    else
      match dom.showAllBtn with
      | none => ⟨dom, some "TypeError: Cannot set properties of null (setting textContent)"⟩
      | some sb0 =>
        match dom.collapseBtn with
        | none =>
          ⟨{ dom with showAllBtn := some { sb0 with textContent :=
              if lang = "es" then "Mostrar todas las charlas" else "Show all talks" } },
           some "TypeError: Cannot set properties of null (setting textContent)"⟩
        | some cb0 =>
          let sb1 : BtnState := { sb0 with textContent :=
            if lang = "es" then "Mostrar todas las charlas" else "Show all talks" }
          let cb1 : BtnState := { cb0 with textContent :=
            if lang = "es" then "Ocultar charlas" else "Collapse talks" }
          let pr := talksPopulate data lang sb1 cb1 false
          if !dom.listenerAttached then
            ⟨{ dom with
                container := some pr.fst
                showAllBtn := some pr.snd.fst
                collapseBtn := some pr.snd.snd
                listenerAttached := true
                attachedLang := some lang }, none⟩
          else
            ⟨{ dom with
                container := some pr.fst
                showAllBtn := some pr.snd.fst
                collapseBtn := some pr.snd.snd }, none⟩

/-- Firing the click handlers attached by `populateTalks` (they run
`populate(showAll)` with the captured language, reading the current global
records). A no-op when no listener was ever attached. -/
def clickTalksHandler (globalData : List Talk) (showAll : Bool) (dom : TalksDom) :
    TalksDom :=
  match dom.attachedLang, dom.container, dom.showAllBtn, dom.collapseBtn with
  | some lang, some _, some sb, some cb =>
    let pr := talksPopulate globalData lang sb cb showAll
    { dom with
        container := some pr.fst
        showAllBtn := some pr.snd.fst
        collapseBtn := some pr.snd.snd }
  | _, _, _, _ => dom

def clickShowAllTalks (globalData : List Talk) (dom : TalksDom) : TalksDom :=
  clickTalksHandler globalData true dom

def clickCollapseTalks (globalData : List Talk) (dom : TalksDom) : TalksDom :=
  clickTalksHandler globalData false dom

/-! ## News renderer (source lines 270–317) -/

/-- DOM slice of `populateNews`. Unlike talks, the listeners are re-attached
on every call (there is no `listenerAttached` guard), so the attached
handler languages stack up in call order. -/
structure NewsDom where
  container : Option String
  showAllBtn : Option BtnState
  collapseBtn : Option BtnState
  attachedLangs : List String
deriving DecidableEq

def newsRenderedContent (data : List NewsPost) (lang : String) (showAll : Bool) : String :=
  appendAll ((if showAll then data else data.take initialItemsToShow).map (renderNews lang))

/-- `populateNews(lang)`: same container/button shape as talks (buttons are
dereferenced without a presence check), but the inner `populate` only
rewrites the container, and both listeners are appended unconditionally. -/
def populateNews (data : List NewsPost) (lang : String) (dom : NewsDom) :
    RunResult NewsDom :=
  match dom.container with
  | none => ⟨dom, none⟩
  | some _ =>
    if data.length = 0 then ⟨dom, none⟩
    else
      match dom.showAllBtn with
      | none => ⟨dom, some "TypeError: Cannot set properties of null (setting textContent)"⟩
      | some sb0 =>
        match dom.collapseBtn with
        | none =>
          ⟨{ dom with showAllBtn := some { sb0 with textContent :=
              if lang = "es" then "Mostrar todas las noticias" else "Show all news" } },
           some "TypeError: Cannot set properties of null (setting textContent)"⟩
        | some cb0 =>
          ⟨{ dom with
             container := some (newsRenderedContent data lang false),
             showAllBtn := some { sb0 with textContent :=
               if lang = "es" then "Mostrar todas las noticias" else "Show all news" },
             collapseBtn := some { cb0 with textContent :=
               if lang = "es" then "Ocultar noticias" else "Collapse news" },
             attachedLangs := dom.attachedLangs ++ [lang] }, none⟩

/-- One attached news click handler: `populate(showAll)` with its captured
language (records read from the global at click time). -/
def newsHandlerRun (globalData : List NewsPost) (showAll : Bool) (dom : NewsDom)
    (lang : String) : NewsDom :=
  match dom.container, dom.showAllBtn, dom.collapseBtn with
  | some _, some _, some _ =>
    { dom with container := some (newsRenderedContent globalData lang showAll) }
  | _, _, _ => dom

/-- Clicking show-all fires every attached handler in attachment order. -/
def clickShowAllNews (globalData : List NewsPost) (dom : NewsDom) : NewsDom :=
  dom.attachedLangs.foldl (newsHandlerRun globalData true) dom

def clickCollapseNews (globalData : List NewsPost) (dom : NewsDom) : NewsDom :=
  dom.attachedLangs.foldl (newsHandlerRun globalData false) dom

/-! ## Source fetcher (source lines 31–49) and cache layer (lines 327–348) -/

/-- Outcome of the browser `fetch` + `response.text()` pair for a URL:
either a transport-level failure (a rejected promise, also covering a
failing `response.text()`), or a settled response with its `ok` flag,
`statusText` and body text. -/
inductive FetchOutcome
  | networkFailure (err : String)
  | response (ok : Bool) (statusText : String) (body : String)
deriving DecidableEq

/-- What `fetchDataFromSheet` returns, plus its observable effects: console
entries and the number of network calls issued. -/
structure FetchResult (α : Type) where
  data : List α
  log : List LogEntry
  netCalls : Nat
deriving DecidableEq

/-- The body of the `try` block: `fetch`, the `response.ok` check (throwing
with the status text), and the CSV decode (`Papa.parse`, injected as the
fallible oracle `parse`). `.error` is the JS exception propagating to the
`catch`. -/
def fetchBody {α : Type} (parse : String → Except String (List α))
    (net : String → FetchOutcome) (url : String) : Except String (List α) :=
  match net url with
  | .networkFailure e => .error e
  | .response ok statusText body =>
    if !ok then .error ("Network response was not ok: " ++ statusText)
    else parse body

/-- `fetchDataFromSheet(url)`: empty/absent URL short-circuits with a warning
and no network call; any error from the `try` body is caught, logged with
the offending URL, and degrades to `[]`. The function is total: no exception
escapes it. -/
def fetchDataFromSheet {α : Type} (parse : String → Except String (List α))
    (net : String → FetchOutcome) (url : String) : FetchResult α :=
  if url = "" then
    { data := [], log := [LogEntry.warn "No URL provided. Skipping fetch."], netCalls := 0 }
  else
    match fetchBody parse net url with
    | .ok d => { data := d, log := [], netCalls := 1 }
    | .error e =>
      { data := [],
        log := [LogEntry.error ("Error fetching or parsing sheet data for " ++ url ++ ":") e],
        netCalls := 1 }

/-- `cacheDuration = 3600 * 1000` (one hour in milliseconds). -/
def cacheDuration : Int := 3600 * 1000

/-- A parsed `localStorage` entry `{ timestamp, data }` for one cache key. -/
structure CacheEntry (α : Type) where
  timestamp : Int
  data : List α
deriving DecidableEq

/-- What `getOrFetchData` returns plus its observable effects: the storage
entry for the key after the call, the number of network calls, the number of
`fetchDataFromSheet` invocations, and console entries. -/
structure CacheResult (α : Type) where
  data : List α
  stored : Option (CacheEntry α)
  netCalls : Nat
  fetcherCalls : Nat
  log : List LogEntry
deriving DecidableEq

/-- The fetch-and-store path of `getOrFetchData`: one `fetchDataFromSheet`
call, then the new payload and `Date.now()` are written to storage and the
payload returned (whatever it is, including `[]`). -/
def fetchAndStore {α : Type} (parse : String → Except String (List α))
    (net : String → FetchOutcome) (key url : String) (now : Int) : CacheResult α :=
  let fr := fetchDataFromSheet parse net url
  { data := fr.data,
    stored := some { timestamp := now, data := fr.data },
    netCalls := fr.netCalls,
    fetcherCalls := 1,
    log := LogEntry.info ("Fetching new data for " ++ key ++ ".") :: fr.log }

/-- `getOrFetchData(key, url)` (the helper inside
`initializeDynamicContent`): `stored` is the parsed `localStorage` entry for
`key` (`none` when absent), `now` is `Date.now()`. A present entry younger
than `cacheDuration` is returned verbatim with no fetch; otherwise the
fetch-and-store path runs. -/
def getOrFetchData {α : Type} (parse : String → Except String (List α))
    (net : String → FetchOutcome) (key url : String) (now : Int)
    (stored : Option (CacheEntry α)) : CacheResult α :=
  match stored with
  | some entry =>
    if now - entry.timestamp < cacheDuration then
      { data := entry.data, stored := some entry, netCalls := 0, fetcherCalls := 0,
        log := [LogEntry.info ("Loading " ++ key ++ " data from cache.")] }
    else fetchAndStore parse net key url now
  | none => fetchAndStore parse net key url now

/-! ## Concrete fixtures used by witnesses and counterexamples -/

/-- A CSV decoder oracle that always succeeds with no rows. -/
def parse0 : String → Except String (List Nat) := fun _ => Except.ok []

/-- A network oracle modelling an unreachable endpoint. -/
def net0 : String → FetchOutcome := fun _ => FetchOutcome.networkFailure "ECONNREFUSED"

/-- A stored cache entry written at timestamp 0 holding one record. -/
def entry0 : CacheEntry Nat := ⟨0, [7]⟩

/-- A button in its initial state. -/
def btn0 : BtnState := ⟨"", false, false⟩

/-- A page with all four book category containers present and empty. -/
def booksDom0 : BooksDom := ⟨some "", some "", some "", some ""⟩

def bookFiction : Book := { category := "Fiction" }

def bookPoetry : Book := { category := "poetry" }

def goodTalk : Talk := { youtubeLink := "https://youtu.be/dQw4w9WgXcQ" }

def shortTalk : Talk := { youtubeLink := "https://youtu.be/short" }

/-- A talk whose (sheet-supplied) English title contains the HTML-sensitive
characters `&` and `<`. -/
def evilTalk : Talk := { title_en := "A & B <script>" }

def talkA : Talk := { title_en := "T" }

/-- Talks page whose container exists but whose show-all button is absent. -/
def domMissingBtn : TalksDom := ⟨some "", none, some btn0, false, none⟩

/-- Talks page whose container is absent. -/
def domNoContainer : TalksDom := ⟨none, none, none, false, none⟩

def dataT10 : List Talk := List.replicate 10 {}

def dataN10 : List NewsPost := List.replicate 10 {}

/-! ## Helper lemmas: string concatenation and substrings -/

theorem strToList_append (s t : String) : (s ++ t).toList = s.toList ++ t.toList := rfl

/-- The left factor of a concatenation occurs in it. -/
theorem strSubHead (x rest : String) : x.toList <:+: (x ++ rest).toList :=
  ⟨[], rest.toList, by simp [strToList_append]⟩

/-- A substring of the right factor occurs in the concatenation. -/
theorem strSubTail (x rest : String) {l : List Char} (h : l <:+: rest.toList) :
    l <:+: (x ++ rest).toList :=
  h.trans ⟨x.toList, [], by simp [strToList_append]⟩

/-! ## Helper lemmas: `escapeHTML` acts character by character -/

theorem repAll_append (c : Char) (r a b : List Char) :
    repAll c r (a ++ b) = repAll c r a ++ repAll c r b := by
  induction a with
  | nil => simp [repAll]
  | cons x xs ih => simp [repAll, ih, List.append_assoc]

theorem escListChain_append (a b : List Char) :
    escListChain (a ++ b) = escListChain a ++ escListChain b := by
  simp [escListChain, repAll_append]

theorem escListChain_single (c : Char) : escListChain [c] = escCharSpec c := by
  by_cases h1 : c = ampC
  · subst h1; decide
  by_cases h2 : c = ltC
  · subst h2; decide
  by_cases h3 : c = gtC
  · subst h3; decide
  by_cases h4 : c = quotC
  · subst h4; decide
  by_cases h5 : c = aposC
  · subst h5; decide
  simp [escListChain, repAll, escCharSpec, h1, h2, h3, h4, h5]

theorem escListChain_eq (l : List Char) : escListChain l = concatMap escCharSpec l := by
  induction l with
  | nil => rfl
  | cons c xs ih =>
    have hsplit : c :: xs = [c] ++ xs := rfl
    rw [hsplit, escListChain_append, escListChain_single, ih]
    rfl

/-- The source-derived `escapeHTML` coincides with the per-character
specification `escCharSpec` (the five sensitive characters become entities,
all other characters pass through; no double escaping). -/
theorem escapeHTML_eq_spec (s : String) :
    escapeHTML s = String.mk (concatMap escCharSpec s.toList) := by
  by_cases h : s = ""
  · subst h; rfl
  · simp [escapeHTML, h, escListChain_eq]

/-! ## Helper lemmas: books renderer state -/

theorem clearOpt_idem (o : Option String) : clearOpt (clearOpt o) = clearOpt o := by
  cases o <;> rfl

theorem clearPresent_idem (d : BooksDom) : clearPresent (clearPresent d) = clearPresent d := by
  cases d
  simp [clearPresent, clearOpt_idem]

theorem clearPresent_setCat (d : BooksDom) (k : CatKey) (s content : String)
    (h : getCat d k = some content) : clearPresent (setCat d k s) = clearPresent d := by
  cases d
  cases k <;> simp [getCat] at h <;> simp [setCat, clearPresent, h, clearOpt]

theorem clearPresent_bookStep (lang : String) (st : BooksDom × List LogEntry) (b : Book) :
    clearPresent (bookStep lang st b).1 = clearPresent st.1 := by
  unfold bookStep
  cases hk : keyOfString (bookCategoryKey b) with
  | none => rfl
  | some k =>
    cases hg : getCat st.1 k with
    | none => simp [hg]
    | some content =>
      simp [hg]
      exact clearPresent_setCat st.1 k _ content hg

theorem foldl_clearPresent (lang : String) (data : List Book) :
    ∀ st : BooksDom × List LogEntry,
      clearPresent (data.foldl (bookStep lang) st).1 = clearPresent st.1 := by
  induction data with
  | nil => intro st; rfl
  | cons b rest ih =>
    intro st
    rw [List.foldl_cons, ih, clearPresent_bookStep]

/-! ## Claim C3: fresh cache entry short-circuits the fetch -/

/-- Claim C3: for every key and URL, if a stored cache entry exists and its
timestamp is younger than the one-hour window (`now − storedTimestamp <
3600·1000` ms), `getOrFetchData` performs zero network calls (and zero
`fetchDataFromSheet` invocations), returns the stored payload unchanged, and
leaves the stored entry as it was. -/
theorem claim3_cache_fresh {α : Type} (parse : String → Except String (List α))
    (net : String → FetchOutcome) (key url : String) (now : Int)
    (entry : CacheEntry α) (h : now - entry.timestamp < cacheDuration) :
    getOrFetchData parse net key url now (some entry) =
      { data := entry.data, stored := some entry, netCalls := 0, fetcherCalls := 0,
        log := [LogEntry.info ("Loading " ++ key ++ " data from cache.")] } := by
  simp [getOrFetchData, h]

/-- Witness for C3 at a concrete fresh entry. -/
theorem claim3_witness :
    ((1000 : Int) - entry0.timestamp < cacheDuration)
    ∧ getOrFetchData parse0 net0 "booksCache" "u" 1000 (some entry0) =
        { data := entry0.data, stored := some entry0, netCalls := 0, fetcherCalls := 0,
          log := [LogEntry.info ("Loading " ++ "booksCache" ++ " data from cache.")] } :=
  ⟨by decide, claim3_cache_fresh parse0 net0 "booksCache" "u" 1000 entry0 (by decide)⟩

/-! ## Claim C4: stale or absent entry fetches once and overwrites -/

/-- Claim C4: for every key and URL, if the stored entry is absent or at
least one hour old, `getOrFetchData` runs the fetch-and-store path: exactly
one `fetchDataFromSheet` invocation, the stored entry is overwritten with
the fetched payload and the current timestamp, and that payload is returned
— whatever it is, including the empty sequence. (The single network GET is
issued inside `fetchDataFromSheet` unless the URL is empty, in which case
the fetcher short-circuits without a network call.) -/
theorem claim4_cache_stale {α : Type} (parse : String → Except String (List α))
    (net : String → FetchOutcome) (key url : String) (now : Int) :
    (getOrFetchData parse net key url now none = fetchAndStore parse net key url now)
    ∧ (∀ entry : CacheEntry α, ¬ (now - entry.timestamp < cacheDuration) →
        getOrFetchData parse net key url now (some entry) = fetchAndStore parse net key url now)
    ∧ (fetchAndStore parse net key url now).fetcherCalls = 1
    ∧ (fetchAndStore parse net key url now).stored =
        some ⟨now, (fetchDataFromSheet parse net url).data⟩
    ∧ (fetchAndStore parse net key url now).data = (fetchDataFromSheet parse net url).data
    ∧ (fetchAndStore parse net key url now).netCalls = (if url = "" then 0 else 1) := by
  refine ⟨rfl, fun entry h => by simp [getOrFetchData, h], rfl, rfl, rfl, ?_⟩
  by_cases hu : url = ""
  · simp [fetchAndStore, fetchDataFromSheet, hu]
  · simp only [fetchAndStore, fetchDataFromSheet, hu]
    cases fetchBody parse net url <;> simp [hu]

/-- Witness for C4 at a concrete stale entry whose re-fetch fails, so the
empty payload overwrites the previously cached record. -/
theorem claim4_witness :
    ¬ ((3600000 : Int) - entry0.timestamp < cacheDuration)
    ∧ getOrFetchData parse0 net0 "talksCache" "u" 3600000 (some entry0) =
        fetchAndStore parse0 net0 "talksCache" "u" 3600000
    ∧ (fetchAndStore parse0 net0 "talksCache" "u" 3600000).data = []
    ∧ (fetchAndStore parse0 net0 "talksCache" "u" 3600000).stored = some ⟨3600000, []⟩ :=
  ⟨by decide,
   (claim4_cache_stale parse0 net0 "talksCache" "u" 3600000).2.1 entry0 (by decide),
   by decide, by decide⟩

/-! ## Claim C5: the fetcher never raises and degrades to an empty sequence -/

/-- Claim C5: `fetchDataFromSheet` is a total function of its oracles (the
`try`/`catch` is modelled by the match on `fetchBody`, so no exception
escapes it); an empty URL short-circuits with a warning and zero network
calls; any error escaping the `try` body — network failure, non-ok response
status, or parse failure — is logged together with the offending URL and
yields the empty sequence; a successful body yields the parsed rows. -/
theorem claim5_fetch_soft_fail {α : Type} (parse : String → Except String (List α))
    (net : String → FetchOutcome) (url : String) :
    (url = "" → fetchDataFromSheet parse net url =
      { data := [], log := [LogEntry.warn "No URL provided. Skipping fetch."], netCalls := 0 })
    ∧ (∀ e, url ≠ "" → fetchBody parse net url = Except.error e →
        fetchDataFromSheet parse net url =
          { data := [],
            log := [LogEntry.error ("Error fetching or parsing sheet data for " ++ url ++ ":") e],
            netCalls := 1 })
    ∧ (∀ d, url ≠ "" → fetchBody parse net url = Except.ok d →
        fetchDataFromSheet parse net url = { data := d, log := [], netCalls := 1 })
    ∧ (∀ st body, net url = FetchOutcome.response false st body →
        fetchBody parse net url = Except.error ("Network response was not ok: " ++ st))
    ∧ (∀ e, net url = FetchOutcome.networkFailure e →
        fetchBody parse net url = Except.error e) := by
  refine ⟨fun h => by simp [fetchDataFromSheet, h],
          fun e h hb => by simp [fetchDataFromSheet, h, hb],
          fun d h hb => by simp [fetchDataFromSheet, h, hb],
          fun st body h => by simp [fetchBody, h],
          fun e h => by simp [fetchBody, h]⟩

/-- Witness for C5: the empty URL and an unreachable endpoint. -/
theorem claim5_witness :
    fetchDataFromSheet parse0 net0 "" =
      { data := [], log := [LogEntry.warn "No URL provided. Skipping fetch."], netCalls := 0 }
    ∧ fetchBody parse0 net0 "u" = Except.error "ECONNREFUSED"
    ∧ fetchDataFromSheet parse0 net0 "u" =
        { data := [],
          log := [LogEntry.error ("Error fetching or parsing sheet data for " ++ "u" ++ ":")
                    "ECONNREFUSED"],
          netCalls := 1 } :=
  ⟨(claim5_fetch_soft_fail parse0 net0 "").1 rfl,
   (claim5_fetch_soft_fail parse0 net0 "u").2.2.2.2 "ECONNREFUSED" rfl,
   (claim5_fetch_soft_fail parse0 net0 "u").2.1 "ECONNREFUSED" (by decide) rfl⟩

/-! ## Claim C6: case-insensitive category routing, unknown categories warned -/

/-- Claim C6: `populateBooks` routes records by lowercasing the category
field: `"Fiction"`, `"fiction"` and `"FICTION"` all resolve to the fiction
container key; a category like `"poetry"` resolves to no key, so the record
is rendered into no container and the per-record warning is logged,
whatever the state of the containers. -/
theorem claim6_category_routing :
    (∀ b : Book,
      b.category = "Fiction" ∨ b.category = "fiction" ∨ b.category = "FICTION" →
      keyOfString (bookCategoryKey b) = some CatKey.fiction)
    ∧ keyOfString (jsToLowerCase "poetry") = none
    ∧ (∀ (lang : String) (dom : BooksDom) (log : List LogEntry) (b : Book),
        b.category = "poetry" →
        bookStep lang (dom, log) b = (dom, log ++ [LogEntry.warn (bookWarnMsg b)])) := by
  refine ⟨?_, by decide, ?_⟩
  · intro b h
    rcases h with h | h | h <;> simp only [bookCategoryKey, h] <;> decide
  · intro lang dom log b h
    have hk : keyOfString (bookCategoryKey b) = none := by
      simp only [bookCategoryKey, h]; decide
    simp [bookStep, hk]

/-- Witness for C6 at concrete records. -/
theorem claim6_witness :
    (bookFiction.category = "Fiction" ∨ bookFiction.category = "fiction" ∨
      bookFiction.category = "FICTION")
    ∧ keyOfString (bookCategoryKey bookFiction) = some CatKey.fiction
    ∧ bookPoetry.category = "poetry"
    ∧ bookStep "en" (booksDom0, []) bookPoetry =
        (booksDom0, [] ++ [LogEntry.warn (bookWarnMsg bookPoetry)]) :=
  ⟨Or.inl rfl,
   claim6_category_routing.1 bookFiction (Or.inl rfl),
   rfl,
   claim6_category_routing.2.2 "en" booksDom0 [] bookPoetry rfl⟩

/-! ## Claim C10: empty data leaves the DOM untouched -/

/-- Claim C10: with an empty fetched record sequence, each renderer returns
before touching the DOM: the state (all container contents, button states,
listener markers) is exactly the input state and nothing is thrown. -/
theorem claim10_empty_data_frame :
    (∀ (lang : String) (dom : BooksDom), populateBooks [] lang dom = (dom, []))
    ∧ (∀ (lang : String) (dom : TalksDom), populateTalks [] lang dom = ⟨dom, none⟩)
    ∧ (∀ (lang : String) (dom : NewsDom), populateNews [] lang dom = ⟨dom, none⟩) := by
  refine ⟨fun lang dom => rfl, fun lang dom => ?_, fun lang dom => ?_⟩
  · rcases dom with ⟨c, sb, cb, la, al⟩
    cases c <;> simp [populateTalks]
  · rcases dom with ⟨c, sb, cb, als⟩
    cases c <;> simp [populateNews]

/-! ## Claim C9: renderers are idempotent on container content -/

/-- Claim C9: for every record sequence and language, running a renderer a
second time on the state produced by the first run leaves the container
content byte-identical: each non-trivial run clears its target containers
and rebuilds them purely from the records and language (for books the whole
four-container state is reproduced; for talks and news the container
content is reproduced). -/
theorem claim9_idempotent :
    (∀ (data : List Book) (lang : String) (dom : BooksDom),
      (populateBooks data lang (populateBooks data lang dom).1).1 =
        (populateBooks data lang dom).1)
    ∧ (∀ (data : List Talk) (lang : String) (dom : TalksDom),
      ((populateTalks data lang (populateTalks data lang dom).state).state).container =
        (populateTalks data lang dom).state.container)
    ∧ (∀ (data : List NewsPost) (lang : String) (dom : NewsDom),
      ((populateNews data lang (populateNews data lang dom).state).state).container =
        (populateNews data lang dom).state.container) := by
  refine ⟨?_, ?_, ?_⟩
  · intro data lang dom
    by_cases h : data.length = 0
    · simp [populateBooks, h]
    · have hc : clearPresent ((data.foldl (bookStep lang) (clearPresent dom, [])).1) =
          clearPresent dom := by
        rw [foldl_clearPresent]
        exact clearPresent_idem dom
      simp only [populateBooks, h, if_neg, if_false]
      rw [hc]
  · intro data lang dom
    rcases dom with ⟨c, sb, cb, la, al⟩
    cases c with
    | none => simp [populateTalks]
    | some cv =>
      by_cases h : data.length = 0
      · simp [populateTalks, h]
      · cases sb with
        | none => simp [populateTalks, h]
        | some sbv =>
          cases cb with
          | none => simp [populateTalks, h]
          | some cbv =>
            cases la <;> simp [populateTalks, h, talksPopulate]
  · intro data lang dom
    rcases dom with ⟨c, sb, cb, als⟩
    cases c with
    | none => simp [populateNews]
    | some cv =>
      by_cases h : data.length = 0
      · simp [populateNews, h]
      · cases sb with
        | none => simp [populateNews, h]
        | some sbv =>
          cases cb with
          | none => simp [populateNews, h]
          | some cbv => simp [populateNews, h]

/-! ## Claim C8: collapsed view shows the first 3, show-all shows all -/

/-- Claim C8: starting from a page where the container and both buttons
exist and no listener is attached yet, a talks/news render with `n ≥ 3`
records puts exactly the first 3 rendered records in the container
(`data.take 3`, of length 3); firing the attached show-all handler rebuilds
the container from all `n` records; firing collapse rebuilds it from the
first 3 again. -/
theorem claim8_show_all_collapse
    (dataT : List Talk) (dataN : List NewsPost) (lang : String)
    (c0 : String) (sb0 cb0 : BtnState) (cn : String) (sbn cbn : BtnState)
    (hT : 3 ≤ dataT.length) (hN : 3 ≤ dataN.length) :
    ((populateTalks dataT lang ⟨some c0, some sb0, some cb0, false, none⟩).state.container =
       some (talksRenderedContent dataT lang false))
    ∧ (dataT.take initialItemsToShow).length = 3
    ∧ ((clickShowAllTalks dataT
          (populateTalks dataT lang ⟨some c0, some sb0, some cb0, false, none⟩).state).container =
        some (talksRenderedContent dataT lang true))
    ∧ talksRenderedContent dataT lang true = appendAll (dataT.map (renderTalk lang))
    ∧ ((clickCollapseTalks dataT (clickShowAllTalks dataT
          (populateTalks dataT lang ⟨some c0, some sb0, some cb0, false, none⟩).state)).container =
        some (talksRenderedContent dataT lang false))
    ∧ talksRenderedContent dataT lang false =
        appendAll ((dataT.take initialItemsToShow).map (renderTalk lang))
    ∧ ((populateNews dataN lang ⟨some cn, some sbn, some cbn, []⟩).state.container =
        some (newsRenderedContent dataN lang false))
    ∧ (dataN.take initialItemsToShow).length = 3
    ∧ ((clickShowAllNews dataN
          (populateNews dataN lang ⟨some cn, some sbn, some cbn, []⟩).state).container =
        some (newsRenderedContent dataN lang true))
    ∧ ((clickCollapseNews dataN (clickShowAllNews dataN
          (populateNews dataN lang ⟨some cn, some sbn, some cbn, []⟩).state)).container =
        some (newsRenderedContent dataN lang false)) := by
  have hT0 : ¬ (dataT.length = 0) := by omega
  have hN0 : ¬ (dataN.length = 0) := by omega
  have h1 : (populateTalks dataT lang ⟨some c0, some sb0, some cb0, false, none⟩).state =
      ⟨some (talksRenderedContent dataT lang false),
       some ⟨(if lang = "es" then "Mostrar todas las charlas" else "Show all talks"),
             false, false⟩,
       some ⟨(if lang = "es" then "Ocultar charlas" else "Collapse talks"), true, true⟩,
       true, some lang⟩ := by
    simp [populateTalks, hT0, talksPopulate]
  have h2 : (populateNews dataN lang ⟨some cn, some sbn, some cbn, []⟩).state =
      ⟨some (newsRenderedContent dataN lang false),
       some ⟨(if lang = "es" then "Mostrar todas las noticias" else "Show all news"),
             sbn.disabled, sbn.opacity50⟩,
       some ⟨(if lang = "es" then "Ocultar noticias" else "Collapse news"),
             cbn.disabled, cbn.opacity50⟩,
       [lang]⟩ := by
    simp [populateNews, hN0]
  refine ⟨by rw [h1], ?_, ?_, rfl, ?_, rfl, by rw [h2], ?_, ?_, ?_⟩
  · simp only [initialItemsToShow, List.length_take]
    omega
  · rw [h1]
    simp [clickShowAllTalks, clickTalksHandler, talksPopulate]
  · rw [h1]
    simp [clickShowAllTalks, clickCollapseTalks, clickTalksHandler, talksPopulate]
  · simp only [initialItemsToShow, List.length_take]
    omega
  · rw [h2]
    simp [clickShowAllNews, newsHandlerRun]
  · rw [h2]
    simp [clickShowAllNews, clickCollapseNews, newsHandlerRun]

/-- Witness for C8 with ten records in each category. -/
theorem claim8_witness :
    3 ≤ dataT10.length
    ∧ 3 ≤ dataN10.length
    ∧ (populateTalks dataT10 "en" ⟨some "", some btn0, some btn0, false, none⟩).state.container =
        some (talksRenderedContent dataT10 "en" false)
    ∧ (dataT10.take initialItemsToShow).length = 3
    ∧ (clickShowAllTalks dataT10
        (populateTalks dataT10 "en" ⟨some "", some btn0, some btn0, false, none⟩).state).container =
        some (talksRenderedContent dataT10 "en" true)
    ∧ (clickCollapseTalks dataT10 (clickShowAllTalks dataT10
        (populateTalks dataT10 "en" ⟨some "", some btn0, some btn0, false, none⟩).state)).container =
        some (talksRenderedContent dataT10 "en" false) :=
  ⟨by decide, by decide,
   (claim8_show_all_collapse dataT10 dataN10 "en" "" btn0 btn0 "" btn0 btn0
     (by decide) (by decide)).1,
   (claim8_show_all_collapse dataT10 dataN10 "en" "" btn0 btn0 "" btn0 btn0
     (by decide) (by decide)).2.1,
   (claim8_show_all_collapse dataT10 dataN10 "en" "" btn0 btn0 "" btn0 btn0
     (by decide) (by decide)).2.2.1,
   (claim8_show_all_collapse dataT10 dataN10 "en" "" btn0 btn0 "" btn0 btn0
     (by decide) (by decide)).2.2.2.2.1⟩

/-! ## Claim C7: video-id extraction and the two layouts -/

/-- A substring of the left factor occurs in the concatenation. -/
theorem strSubLeft (s t : String) {l : List Char} (h : l <:+: s.toList) :
    l <:+: (s ++ t).toList :=
  h.trans ⟨[], t.toList, by simp [strToList_append]⟩

/-- Claim C7: `getYoutubeVideoId` extracts `dQw4w9WgXcQ` from the example
link and rejects the 5-character identifier of `https://youtu.be/short`;
every extracted identifier has exactly 11 characters; when an identifier is
extracted, `renderTalk` emits the two-column layout whose markup embeds
`https://www.youtube.com/embed/<id>`; when none is extracted, `renderTalk`
emits the text-only layout. -/
theorem claim7_video_id :
    getYoutubeVideoId "https://youtu.be/dQw4w9WgXcQ" = some "dQw4w9WgXcQ"
    ∧ getYoutubeVideoId "https://youtu.be/short" = none
    ∧ (∀ (url id : String), getYoutubeVideoId url = some id → id.length = 11)
    ∧ (∀ (lang : String) (talk : Talk) (id : String),
        getYoutubeVideoId talk.youtubeLink = some id →
        ("https://www.youtube.com/embed/" ++ id).toList <:+: (renderTalk lang talk).toList)
    ∧ (∀ (lang : String) (talk : Talk),
        getYoutubeVideoId talk.youtubeLink = none →
        renderTalk lang talk =
          "<div class=\"border-b border-gray-700 pb-4\">" ++
            (textContentHtml lang talk ++ "</div>")) := by
  refine ⟨by decide, by decide, ?_, ?_, ?_⟩
  · intro url id h
    unfold getYoutubeVideoId at h
    by_cases hu : url = ""
    · rw [if_pos hu] at h
      exact absurd h (by simp)
    · rw [if_neg hu] at h
      cases hd : findLastDelim url.toList with
      | none => rw [hd] at h; exact absurd h (by simp)
      | some p =>
        rw [hd] at h
        dsimp only at h
        split at h
        · next hlen =>
            cases h
            exact hlen
        · exact absurd h (by simp)
  · intro lang talk id h
    simp only [renderTalk, h]
    apply strSubTail
    apply strSubLeft
    simp only [talkEmbedHtml]
    apply strSubTail
    apply strSubLeft
    exact List.infix_rfl
  · intro lang talk h
    simp only [renderTalk, h]

/-- Witness for C7 at the two example links. -/
theorem claim7_witness :
    getYoutubeVideoId goodTalk.youtubeLink = some "dQw4w9WgXcQ"
    ∧ ("dQw4w9WgXcQ" : String).length = 11
    ∧ ("https://www.youtube.com/embed/" ++ "dQw4w9WgXcQ").toList <:+:
        (renderTalk "en" goodTalk).toList
    ∧ getYoutubeVideoId shortTalk.youtubeLink = none
    ∧ renderTalk "en" shortTalk =
        "<div class=\"border-b border-gray-700 pb-4\">" ++
          (textContentHtml "en" shortTalk ++ "</div>") :=
  ⟨by decide,
   claim7_video_id.2.2.1 goodTalk.youtubeLink "dQw4w9WgXcQ" (by decide),
   claim7_video_id.2.2.2.1 "en" goodTalk "dQw4w9WgXcQ" (by decide),
   by decide,
   claim7_video_id.2.2.2.2 "en" shortTalk (by decide)⟩

/-! ## Claim C2: missing DOM targets — containers skip, buttons throw -/

/-- Counterexample to claim C2 as stated: on a page where the talks
container exists but the show-all button is absent, `populateTalks` with a
non-empty record list does not skip silently — the unconditional
`showAllBtn.textContent` assignment raises a `TypeError` that escapes the
function. -/
theorem claim2_counterexample :
    (populateTalks [talkA] "en" domMissingBtn).thrown.isSome = true := by decide

/-- Amended claim C2: an absent *container* does make the renderer skip that
slice silently (talks/news return the state unchanged with nothing thrown;
books skip the record with only a per-record warning when its category
container is absent); but when the talks/news container is present with
non-empty data and the show-all button is absent, the renderer throws a
`TypeError` past its boundary. -/
theorem claim2_amended :
    (∀ (data : List Talk) (lang : String) (dom : TalksDom),
      dom.container = none → populateTalks data lang dom = ⟨dom, none⟩)
    ∧ (∀ (data : List NewsPost) (lang : String) (dom : NewsDom),
      dom.container = none → populateNews data lang dom = ⟨dom, none⟩)
    ∧ (∀ (lang : String) (dom : BooksDom) (log : List LogEntry) (b : Book) (k : CatKey),
        keyOfString (bookCategoryKey b) = some k → getCat dom k = none →
        bookStep lang (dom, log) b = (dom, log ++ [LogEntry.warn (bookWarnMsg b)]))
    ∧ (∀ (data : List Talk) (lang : String) (dom : TalksDom),
        dom.container ≠ none → data.length ≠ 0 → dom.showAllBtn = none →
        (populateTalks data lang dom).thrown =
          some "TypeError: Cannot set properties of null (setting textContent)")
    ∧ (∀ (data : List NewsPost) (lang : String) (dom : NewsDom),
        dom.container ≠ none → data.length ≠ 0 → dom.showAllBtn = none →
        (populateNews data lang dom).thrown =
          some "TypeError: Cannot set properties of null (setting textContent)") := by
  refine ⟨?_, ?_, ?_, ?_, ?_⟩
  · intro data lang dom h
    rcases dom with ⟨c, sb, cb, la, al⟩
    cases c with
    | none => rfl
    | some cv => simp at h
  · intro data lang dom h
    rcases dom with ⟨c, sb, cb, als⟩
    cases c with
    | none => rfl
    | some cv => simp at h
  · intro lang dom log b k hk hg
    simp [bookStep, hk, hg]
  · intro data lang dom h1 h2 h3
    rcases dom with ⟨c, sb, cb, la, al⟩
    cases c with
    | none => simp at h1
    | some cv =>
      cases sb with
      | none => simp [populateTalks, h2]
      | some sbv => simp at h3
  · intro data lang dom h1 h2 h3
    rcases dom with ⟨c, sb, cb, als⟩
    cases c with
    | none => simp at h1
    | some cv =>
      cases sb with
      | none => simp [populateNews, h2]
      | some sbv => simp at h3

/-- Witness for amended C2: absent container skips silently; absent show-all
button throws. -/
theorem claim2_witness :
    domNoContainer.container = none
    ∧ populateTalks [talkA] "en" domNoContainer = ⟨domNoContainer, none⟩
    ∧ domMissingBtn.container ≠ none
    ∧ ([talkA] : List Talk).length ≠ 0
    ∧ domMissingBtn.showAllBtn = none
    ∧ (populateTalks [talkA] "en" domMissingBtn).thrown =
        some "TypeError: Cannot set properties of null (setting textContent)" :=
  ⟨rfl,
   claim2_amended.1 [talkA] "en" domNoContainer rfl,
   by decide, by decide, rfl,
   claim2_amended.2.2.2.1 [talkA] "en" domMissingBtn (by decide) (by decide) rfl⟩

/-! ## Claim C1: which interpolated fields are escaped -/

set_option maxRecDepth 100000 in
/-- Counterexample to claim C1 as stated: the talks renderer interpolates
the localized title raw. For a talk whose English title is
`A & B <script>`, the rendered markup contains that raw string (with `&`
and `<` unescaped) and does not contain its `escapeHTML` image
`A &amp; B &lt;script&gt;` anywhere. -/
theorem claim1_counterexample :
    ("A & B <script>" : String).toList <:+: (renderTalk "en" evilTalk).toList
    ∧ ¬ ((escapeHTML "A & B <script>").toList <:+: (renderTalk "en" evilTalk).toList) := by
  constructor <;> decide

theorem talkTitle_sub_textContent (lang : String) (talk : Talk) :
    (talkTitle lang talk).toList <:+: (textContentHtml lang talk).toList := by
  unfold textContentHtml
  apply strSubTail
  exact strSubHead _ _

theorem talkDescription_sub_textContent (lang : String) (talk : Talk) :
    (talkDescription lang talk).toList <:+: (textContentHtml lang talk).toList := by
  unfold textContentHtml
  apply strSubTail
  apply strSubTail
  apply strSubTail
  apply strSubTail
  apply strSubTail
  exact strSubHead _ _

theorem textContent_sub_renderTalk (lang : String) (talk : Talk) :
    (textContentHtml lang talk).toList <:+: (renderTalk lang talk).toList := by
  cases h : getYoutubeVideoId talk.youtubeLink <;> simp only [renderTalk, h]
  · apply strSubTail
    exact strSubHead _ _
  · apply strSubTail
    apply strSubTail
    apply strSubTail
    exact strSubHead _ _

/-- Amended claim C1: `escapeHTML` does replace the five HTML-sensitive
characters by their entity equivalents, character by character, and the
renderers apply it to the books gallery fields and to the news `data-*`
attributes (and to the talks iframe title); but the talks displayed
title/description and the news displayed title/date are interpolated into
the markup raw, without escaping. -/
theorem claim1_amended :
    (∀ s : String, escapeHTML s = String.mk (concatMap escCharSpec s.toList))
    ∧ escapeHTML "A & B <script>" = "A &amp; B &lt;script&gt;"
    ∧ (∀ (lang : String) (talk : Talk),
        (talkTitle lang talk).toList <:+: (renderTalk lang talk).toList)
    ∧ (∀ (lang : String) (talk : Talk),
        (talkDescription lang talk).toList <:+: (renderTalk lang talk).toList)
    ∧ (∀ (lang : String) (post : NewsPost),
        (newsTitle lang post).toList <:+: (renderNews lang post).toList)
    ∧ (∀ (lang : String) (post : NewsPost),
        (newsDate lang post).toList <:+: (renderNews lang post).toList)
    ∧ (∀ (lang : String) (post : NewsPost),
        (escapeHTML post.title_en).toList <:+: (renderNews lang post).toList)
    ∧ (∀ (lang : String) (book : Book),
        (escapeHTML book.title_en).toList <:+: (renderBook lang book).toList) := by
  refine ⟨escapeHTML_eq_spec, by decide, ?_, ?_, ?_, ?_, ?_, ?_⟩
  · intro lang talk
    exact (talkTitle_sub_textContent lang talk).trans (textContent_sub_renderTalk lang talk)
  · intro lang talk
    exact (talkDescription_sub_textContent lang talk).trans
      (textContent_sub_renderTalk lang talk)
  · intro lang post
    unfold renderNews
    apply strSubTail
    exact strSubHead _ _
  · intro lang post
    unfold renderNews
    apply strSubTail
    apply strSubTail
    apply strSubTail
    exact strSubHead _ _
  · intro lang post
    unfold renderNews
    apply strSubTail
    apply strSubTail
    apply strSubTail
    apply strSubTail
    apply strSubTail
    exact strSubHead _ _
  · intro lang book
    unfold renderBook
    apply strSubTail
    apply strSubTail
    apply strSubTail
    apply strSubTail
    apply strSubTail
    apply strSubTail
    apply strSubTail
    exact strSubHead _ _
